import Mathlib

/-!
Verification of the notebooklm-enterprise-experiments-py repository.

This file shallowly embeds the parts of the code that the claims C1..C10
concern: the Python value model used by the loosely-typed vendor response
parsing, the domain value objects and the `Notebook` entity, the two
`VertexAISearchService` implementations' response parsers, the
`ContentGenerator.generate_search_params` post-processing, the MCP
`call_tool` dispatcher of `servers/rag_server.py`, and the date derivation
of `scripts/generate_metadata.py`.  Effectful boundaries (the Discovery
Engine backend, the generative model, `json.loads`) are passed in as
explicit oracle parameters; Python exceptions are modelled with `Except`.
-/

namespace NotebookLM

/-- Model of the dynamically-typed Python values flowing through the
response parsers: JSON-decoded values and the proto-plus struct values of
`derived_struct_data`.  Floats are not needed by any claim and omitted. -/
inductive PyVal where
  | vNone : PyVal
  | vBool : Bool → PyVal
  | vInt : Int → PyVal
  | vStr : String → PyVal
  | vList : List PyVal → PyVal
  | vDict : List (String × PyVal) → PyVal
deriving Repr

/-- Python truthiness (`if x:`) for the modelled values. -/
def pyTruthy : PyVal → Bool
  | .vNone => false
  | .vBool b => b
  | .vInt n => n != 0
  | .vStr s => !s.isEmpty
  | .vList xs => !xs.isEmpty
  | .vDict kvs => !kvs.isEmpty

/-- `str()` on a modelled value.  The parsing claims only ever apply it to
string values or to string defaults; the rendering of composite values is
abbreviated. -/
def pyStr : PyVal → String
  | .vNone => "None"
  | .vBool true => "True"
  | .vBool false => "False"
  | .vInt n => toString n
  | .vStr s => s
  | .vList _ => "[...]"
  | .vDict _ => "\x7b...\x7d"

/-- Python `dict.get k`: the value of the last binding of `k` (Python dict
construction is last-wins on duplicate keys), `none` when absent. -/
def pyGet (kvs : List (String × PyVal)) (k : String) : Option PyVal :=
  (kvs.reverse.find? (fun p => p.1 == k)).map (fun p => p.2)

/-- Python `dict.get k default`. -/
def pyGetD (kvs : List (String × PyVal)) (k : String) (default : PyVal) : PyVal :=
  (pyGet kvs k).getD default

/-- Python `k in dict`. -/
def pyHasKey (kvs : List (String × PyVal)) (k : String) : Bool :=
  kvs.any (fun p => p.1 == k)

theorem pyGet_eq_none_of_hasKey_false (kvs : List (String × PyVal)) (k : String)
    (h : pyHasKey kvs k = false) : pyGet kvs k = none := by
  unfold pyGet
  rw [List.find?_eq_none.mpr, Option.map_none']
  intro p hp hb
  rw [pyHasKey, List.any_eq_false] at h
  exact h p (List.mem_reverse.mp hp) hb

/-- The kinds of Python exception relevant to the claims. -/
inductive PyExc where
  | valueError : String → PyExc
  | attributeError : String → PyExc
  | typeError : String → PyExc
  /-- `google.api_core.exceptions.InvalidArgument` -/
  | invalidArgument : String → PyExc
  /-- any other backend / transport failure -/
  | apiError : String → PyExc
deriving DecidableEq, Repr

/-- `str(e)` on a modelled exception. -/
def pyExcMsg : PyExc → String
  | .valueError m => m
  | .attributeError m => m
  | .typeError m => m
  | .invalidArgument m => m
  | .apiError m => m

end NotebookLM

namespace NotebookLM

/-! ## Domain value objects (`domain/value_objects`) -/

/-- `Query` value object: `text` is guaranteed a string by construction. -/
structure Query where
  text : String
deriving DecidableEq, Repr

/-- `Query.__post_init__`: raises `ValueError` on the empty string
(`if not self.text`), otherwise the frozen dataclass holds `text`. -/
def mkQuery (text : String) : Except PyExc Query :=
  if text = "" then .error (.valueError "Queryは空文字列にできません。")
  else .ok ⟨text⟩

/-- `Query.__str__`. -/
def queryToString (q : Query) : String := q.text

/-! ## `Notebook` entity (`domain/entities/notebook.py`) -/

/-- The `Notebook` dataclass.  The `isinstance` checks of
`__post_init__` are guaranteed by the Lean types; the remaining
content check is `notebookValid`. -/
structure Notebook where
  notebook_id : String
  display_name : String
  sources : List String
deriving DecidableEq, Repr

/-- The content conditions `__post_init__` enforces beyond typing:
`display_name` must be non-empty.  No condition on `sources` beyond
element typing — in particular duplicates are accepted. -/
def notebookValid (n : Notebook) : Bool :=
  !n.display_name.isEmpty

/-- `Notebook.add_source`: appends `source_uri` unless already present. -/
def addSource (n : Notebook) (source_uri : String) : Notebook :=
  if source_uri ∈ n.sources then n
  else ⟨n.notebook_id, n.display_name, n.sources ++ [source_uri]⟩

end NotebookLM

namespace NotebookLM

/-- C5 as stated is false: `__post_init__` does not reject a `sources`
list that already contains duplicates, and `add_source` then leaves the
duplicates in place.  The notebook below is accepted by the validation
yet ends with `count = 2` after two adds. -/
theorem claim_C5_counterexample :
    notebookValid ⟨"nb-1", "Duplicated", ["gs://b/doc.pdf", "gs://b/doc.pdf"]⟩ = true ∧
    ((addSource (addSource ⟨"nb-1", "Duplicated", ["gs://b/doc.pdf", "gs://b/doc.pdf"]⟩
        "gs://b/doc.pdf") "gs://b/doc.pdf").sources.count "gs://b/doc.pdf") ≠ 1 := by
  constructor
  · rfl
  · decide

/-- C5 (amended): for every notebook whose `sources` hold the URI at most
once — which includes every notebook built by the repository itself, since
`create()` starts from `[]` and `add_source` never introduces a
duplicate — adding the URI twice is idempotent and leaves exactly one
occurrence. -/
theorem claim_C5 (n : Notebook) (u : String) (h : n.sources.count u ≤ 1) :
    ((addSource (addSource n u) u).sources.count u) = 1 := by
  by_cases hm : u ∈ n.sources
  · have hge : 1 ≤ n.sources.count u := List.one_le_count_iff.mpr hm
    have hc : n.sources.count u = 1 := le_antisymm h hge
    simp only [addSource, if_pos hm]
    simpa [addSource, hm] using hc
  · have hc : n.sources.count u = 0 := List.count_eq_zero.mpr hm
    simp only [addSource, if_neg hm]
    have hm2 : u ∈ n.sources ++ [u] := by simp
    simp [hm2, List.count_append, hc]

/-- Witness for C5: a fresh notebook, URI added twice, ends with one copy. -/
theorem claim_C5_witness :
    (["gs://b/a.pdf"].count "gs://b/a.pdf" ≤ 1) ∧
    ((addSource (addSource ⟨"nb-2", "Fresh", ["gs://b/a.pdf"]⟩
        "gs://b/x.pdf") "gs://b/x.pdf").sources.count "gs://b/x.pdf") = 1 := by
  refine ⟨by decide, ?_⟩
  exact claim_C5 ⟨"nb-2", "Fresh", ["gs://b/a.pdf"]⟩ "gs://b/x.pdf" (by decide)

/-- C6: for every non-empty string `s`, constructing `Query(s)` succeeds
and preserves the text, `str(Query(s))` round-trips to `s`, and
`Query("")` raises a `ValueError` before any backend call. -/
theorem claim_C6 (s : String) (h : s ≠ "") :
    mkQuery s = .ok ⟨s⟩ ∧ queryToString ⟨s⟩ = s ∧
    mkQuery "" = .error (.valueError "Queryは空文字列にできません。") := by
  refine ⟨?_, rfl, rfl⟩
  simp [mkQuery, h]

/-- Witness for C6 at the concrete query text "hello". -/
theorem claim_C6_witness :
    mkQuery "hello" = .ok ⟨"hello"⟩ ∧ queryToString ⟨"hello"⟩ = "hello" ∧
    mkQuery "" = .error (.valueError "Queryは空文字列にできません。") :=
  claim_C6 "hello" (by decide)

end NotebookLM

namespace NotebookLM

/-! ## `ContentGenerator.generate_search_params`
(`infrastructure/external/content_generator.py`, lines 292-337) -/

/-- The whitespace characters stripped by Python `str.strip()` (the ASCII
subset; no claim exercises the further Unicode space characters). -/
def pyIsSpace (c : Char) : Bool :=
  c = ' ' || c = '\t' || c = '\n' || c = '\r' || c = '\x0b' || c = '\x0c'

/-- Python `str.strip()`. -/
def pyStrip (s : String) : String :=
  String.mk (((s.toList.dropWhile pyIsSpace).reverse.dropWhile pyIsSpace).reverse)

/-- Python `str.startswith` (on code points, as Python operates). -/
def pyStartsWith (s pre : String) : Bool :=
  pre.toList.isPrefixOf s.toList

/-- Python `str.endswith`. -/
def pyEndsWith (s suf : String) : Bool :=
  suf.toList.reverse.isPrefixOf s.toList.reverse

/-- Python slicing `s[n:]` (by code points). -/
def pyDrop (s : String) (n : Nat) : String :=
  String.mk (s.toList.drop n)

/-- Python slicing `s[:-n]` for `0 < n ≤ len(s)` (by code points). -/
def pyDropRight (s : String) (n : Nat) : String :=
  String.mk ((s.toList.reverse.drop n).reverse)

/-- The code-fence removal of `generate_search_params`:
`response.text.strip()`, then drop a leading "```json" fence, then a
leading "```" fence, then a trailing "```", then strip again. -/
def stripCodeBlock (response_text : String) : String :=
  let t0 := pyStrip response_text
  let t1 := if pyStartsWith t0 "```json" then pyDrop t0 7 else t0
  let t2 := if pyStartsWith t1 "```" then pyDrop t1 3 else t1
  let t3 := if pyEndsWith t2 "```" then pyDropRight t2 3 else t2
  pyStrip t3

/-- The dict returned by `generate_search_params`. -/
structure GenSearchParams where
  query : PyVal
  filter : PyVal
  order_by : PyVal
deriving Repr

/-- `generate_search_params`, with the generative model's reply passed as
`response_text` and `json.loads` as an oracle (`none` models
`json.JSONDecodeError`).  A parse failure is caught and the safe default
returned; but `params.get(...)` on a successfully-parsed non-dict value
raises an uncaught `AttributeError`. -/
def generateSearchParams (json_loads : String → Option PyVal)
    (user_query : String) (response_text : String) :
    Except PyExc GenSearchParams :=
  match json_loads (stripCodeBlock response_text) with
  | none => .ok ⟨.vStr user_query, .vNone, .vNone⟩
  | some params =>
    match params with
    | .vDict kvs =>
        .ok ⟨pyGetD kvs "query" (.vStr user_query),
             pyGetD kvs "filter" .vNone,
             pyGetD kvs "order_by" .vNone⟩
    | _ => .error (.attributeError "object has no attribute get")

/-- A fragment of `json.loads` on atomic literals, used to build concrete
inputs: this is exactly what `json.loads` returns on these five texts, and
`none` (parse failure) elsewhere — sufficient for the inputs below. -/
def jsonLoadsAtom (s : String) : Option PyVal :=
  if s = "null" then some .vNone
  else if s = "true" then some (.vBool true)
  else if s = "false" then some (.vBool false)
  else if s = "[]" then some (.vList [])
  else if s = "\x7b\x7d" then some (.vDict [])
  else none

/-- C1 as stated is false: on the model output "null" the stripped text
parses as JSON (to Python `None`), and `params.get` then raises an
uncaught `AttributeError` — `generate_search_params` does raise. -/
theorem claim_C1_counterexample :
    generateSearchParams jsonLoadsAtom "直近の議事録" "null" =
      .error (.attributeError "object has no attribute get") := by
  rfl

/-- C1 (amended): `generate_search_params` never raises and defaults as
described provided the stripped text either fails to parse as JSON or
parses to a JSON object; a JSON-parseable non-object output instead
raises.  On parse failure the whole safe default
`(query = original input, filter = None, order_by = None)` is returned;
on an object, each of the three keys that is missing defaults the same
way per-key. -/
theorem claim_C1 (json_loads : String → Option PyVal)
    (user_query response_text : String) :
    (json_loads (stripCodeBlock response_text) = none →
      generateSearchParams json_loads user_query response_text =
        .ok ⟨.vStr user_query, .vNone, .vNone⟩) ∧
    (∀ kvs, json_loads (stripCodeBlock response_text) = some (.vDict kvs) →
      ∃ p, generateSearchParams json_loads user_query response_text = .ok p ∧
        p.query = pyGetD kvs "query" (.vStr user_query) ∧
        p.filter = pyGetD kvs "filter" .vNone ∧
        p.order_by = pyGetD kvs "order_by" .vNone ∧
        (pyHasKey kvs "query" = false → p.query = .vStr user_query) ∧
        (pyHasKey kvs "filter" = false → p.filter = .vNone) ∧
        (pyHasKey kvs "order_by" = false → p.order_by = .vNone)) := by
  constructor
  · intro h
    unfold generateSearchParams
    rw [h]
  · intro kvs h
    refine ⟨⟨pyGetD kvs "query" (.vStr user_query),
            pyGetD kvs "filter" .vNone, pyGetD kvs "order_by" .vNone⟩,
            ?_, rfl, rfl, rfl, ?_, ?_, ?_⟩
    · unfold generateSearchParams
      rw [h]
    · intro hk
      simp [pyGetD, pyGet_eq_none_of_hasKey_false kvs "query" hk]
    · intro hk
      simp [pyGetD, pyGet_eq_none_of_hasKey_false kvs "filter" hk]
    · intro hk
      simp [pyGetD, pyGet_eq_none_of_hasKey_false kvs "order_by" hk]

/-- Witness for C1: a malformed model output yields the safe default, and
a fenced empty JSON object yields the per-key defaults. -/
theorem claim_C1_witness :
    generateSearchParams jsonLoadsAtom "最新のドキュメント" "this is not json" =
      .ok ⟨.vStr "最新のドキュメント", .vNone, .vNone⟩ ∧
    ∃ p, generateSearchParams jsonLoadsAtom "朝会" "```json\n\x7b\x7d\n```" = .ok p ∧
      p.query = .vStr "朝会" ∧ p.filter = .vNone ∧ p.order_by = .vNone := by
  constructor
  · exact (claim_C1 jsonLoadsAtom "最新のドキュメント" "this is not json").1 rfl
  · obtain ⟨p, hp, _, _, _, hq, hf, ho⟩ :=
      (claim_C1 jsonLoadsAtom "朝会" "```json\n\x7b\x7d\n```").2 [] rfl
    exact ⟨p, hp, hq rfl, hf rfl, ho rfl⟩

end NotebookLM

namespace NotebookLM

/-! ## Search result data classes (`interfaces/search_interface.py`, with
the identical definitions re-exported through `models`) -/

/-- `SearchCitation` dataclass. -/
structure SearchCitation where
  title : String
  url : String
deriving DecidableEq, Repr

/-- `SearchResult` dataclass. -/
structure SearchResult where
  summary : String
  citations : List SearchCitation
deriving DecidableEq, Repr

/-- `DocumentResult` dataclass. -/
structure DocumentResult where
  title : String
  content : String
  url : String
deriving DecidableEq, Repr

/-- `DocumentSearchResult` dataclass. -/
structure DocumentSearchResult where
  results : List DocumentResult
deriving DecidableEq, Repr

/-! ## Discovery Engine search responses, as far as the parsers in
`services/vertex_ai_search_service.py` inspect them -/

/-- A search-result document: the parsers only read
`derived_struct_data` (a proto struct, modelled as key/value pairs;
the empty map is falsy). -/
structure RawDocument where
  derived_struct_data : List (String × PyVal)

/-- One entry of `response.results`; `document` is `none` when the
document message is missing/falsy. -/
structure RawResult where
  document : Option RawDocument

/-- `response.summary`; absent/falsy summaries are `none`. -/
structure RawSummary where
  summary_text : String

/-- A `SearchResponse`, as far as the two parsers inspect it. -/
structure RawSearchResponse where
  summary : Option RawSummary
  results : List RawResult

/-! ## `VertexAISearchService._parse_document_response`
(`services/vertex_ai_search_service.py`, lines 261-353) -/

/-- Python `list.extend(x)` iterating `x`: lists extend element-wise,
strings extend as their characters, dicts as their keys (first-occurrence
order), anything else raises `TypeError`. -/
def pyIterate : PyVal → Except PyExc (List PyVal)
  | .vList xs => .ok xs
  | .vStr s => .ok (s.toList.map (fun c => .vStr (String.singleton c)))
  | .vDict kvs => .ok ((kvs.map (fun p => p.1)).eraseDups.map PyVal.vStr)
  | _ => .error (.typeError "object is not iterable")

/-- Collection of the candidate text sources: the `extractive_segments`,
`extractive_answers` and `snippets` lists, in that order. -/
def collectSources (data : List (String × PyVal)) : Except PyExc (List PyVal) := do
  let s1 ← if pyHasKey data "extractive_segments"
           then pyIterate (pyGetD data "extractive_segments" .vNone) else pure []
  let s2 ← if pyHasKey data "extractive_answers"
           then pyIterate (pyGetD data "extractive_answers" .vNone) else pure []
  let s3 ← if pyHasKey data "snippets"
           then pyIterate (pyGetD data "snippets" .vNone) else pure []
  pure (s1 ++ s2 ++ s3)

/-- Step 1 of the extraction hierarchy: the `or`-chain
`get("content") or get("snippet") or get("htmlSnippet") or get("text")`,
yielding the first truthy value; only dict-like values have `get`
(`hasattr(source_obj, "get")`). -/
def getChain (source_obj : PyVal) : Option PyVal :=
  match source_obj with
  | .vDict kvs =>
      let tryKey := fun (k : String) =>
        match pyGet kvs k with
        | some v => if pyTruthy v then some v else none
        | none => none
      (tryKey "content") <|> (tryKey "snippet") <|>
        (tryKey "htmlSnippet") <|> (tryKey "text")
  | _ => none

/-- Step 2 of the extraction hierarchy: the longest string among
`dict(source_obj).values()`, kept only above the noise threshold of 10
characters.  `dict()` of a non-mapping raises `TypeError`/`ValueError`,
which the source catches and ignores — modelled as `none` (the backend's
source objects are proto maps; only those convert). -/
def longestStringValue (source_obj : PyVal) : Option String :=
  match source_obj with
  | .vDict kvs =>
      let longest := kvs.foldl (fun (acc : String) p =>
        match p.2 with
        | .vStr v => if v.length > acc.length then v else acc
        | _ => acc) ""
      if longest.length > 10 then some longest else none
  | _ => none

/-- The full extraction hierarchy for one source object: known keys first,
then the longest-string fallback. -/
def extractFoundText (source_obj : PyVal) : Option PyVal :=
  match getChain source_obj with
  | some v => some v
  | none => (longestStringValue source_obj).map PyVal.vStr

/-- Replacement engine for `pyReplace`, structurally recursive on a fuel
that starts at the string length (so it never runs out while the text is
non-empty). -/
def replaceListAux (old new : List Char) : Nat → List Char → List Char
  | _, [] => []
  | 0, s => s
  | fuel + 1, c :: cs =>
      if old.isPrefixOf (c :: cs) && !old.isEmpty then
        new ++ replaceListAux old new fuel ((c :: cs).drop old.length)
      else c :: replaceListAux old new fuel cs

/-- Python `str.replace old new` for non-empty `old` (every call site uses
a non-empty pattern): all non-overlapping occurrences, left to right. -/
def pyReplace (s old new : String) : String :=
  String.mk (replaceListAux old.toList new.toList s.toList.length s.toList)

/-- The cleanup applied to a found text: remove the simple `<b>` tags and
flatten newlines.  On a truthy non-string found value `str.replace` does
not exist and an `AttributeError` is raised. -/
def cleanFoundText : PyVal → Except PyExc String
  | .vStr s => .ok (pyReplace (pyReplace (pyReplace s "<b>" "") "</b>" "") "\n" " ")
  | _ => .error (.attributeError "object has no attribute replace")

/-- The `content_parts` loop over the collected sources. -/
def contentParts : List PyVal → Except PyExc (List String)
  | [] => .ok []
  | source_obj :: rest => do
      match extractFoundText source_obj with
      | none => contentParts rest
      | some v => do
          let c ← cleanFoundText v
          let cs ← contentParts rest
          pure (c :: cs)

/-- The joined extracted content of one document
(`"\n\n".join(content_parts)`), before the empty-content fallback. -/
def documentFullContent (data : List (String × PyVal)) : Except PyExc String := do
  let sources ← collectSources data
  let parts ← contentParts sources
  pure (String.intercalate "\n\n" parts)

/-- The literal fallback marker used when a document contributes zero
extractable content. -/
def noContentMarker : String := "(本文なし)"

/-- The per-document body of the `_parse_document_response` loop:
`none` models `continue` (document missing, or empty
`derived_struct_data`). -/
def parseResultDocument (result : RawResult) : Except PyExc (Option DocumentResult) :=
  match result.document with
  | none => .ok none
  | some document =>
      let data := document.derived_struct_data
      if data.isEmpty then .ok none
      else
        match documentFullContent data with
        | .error e => .error e
        | .ok full_content =>
            .ok (some ⟨pyStr (pyGetD data "title" (.vStr "無題")),
                       if full_content = "" then noContentMarker else full_content,
                       pyStr (pyGetD data "link" (.vStr ""))⟩)

/-- The `documents` accumulation of `_parse_document_response`: results
are processed in backend order, skipped results contribute nothing, and
the first raised exception aborts the parse. -/
def parseResultsList : List RawResult → Except PyExc (List DocumentResult)
  | [] => .ok []
  | r :: rs =>
      match parseResultDocument r with
      | .error e => .error e
      | .ok h =>
          match parseResultsList rs with
          | .error e => .error e
          | .ok t =>
              match h with
              | none => .ok t
              | some d => .ok (d :: t)

/-- `VertexAISearchService._parse_document_response`. -/
def parseDocumentResponse (response : RawSearchResponse) :
    Except PyExc DocumentSearchResult :=
  (parseResultsList response.results).map DocumentSearchResult.mk

/-! ## `VertexAISearchService.search_documents`
(`services/vertex_ai_search_service.py`, lines 163-259) -/

/-- The fixed `ContentSearchSpec` of a document search: snippets plus
extractive content, no summary. -/
structure DocContentSearchSpec where
  return_snippet : Bool
  max_snippet_count : Nat
  max_extractive_answer_count : Nat
  max_extractive_segment_count : Nat
  num_previous_segments : Nat
  num_next_segments : Nat
  return_extractive_segment_score : Bool
deriving DecidableEq, Repr

/-- The constant spec built by `search_documents`. -/
def documentContentSearchSpec : DocContentSearchSpec :=
  ⟨true, 3, 2, 3, 1, 1, true⟩

/-- A `SearchRequest` for document search, as far as the gateway sets it:
the `filter` and `order_by` fields are present only when the gateway put
them into `request_params`. -/
structure SearchRequest where
  serving_config : String
  query : String
  page_size : Nat
  content_search_spec : DocContentSearchSpec
  filter : Option String
  order_by : Option String
deriving DecidableEq, Repr

/-- The serving-config path built in `__init__` (the `/engines/` form). -/
def servingConfigPath (project_id location engine_id : String) : String :=
  "projects/" ++ project_id ++ "/locations/" ++ location ++
    "/collections/default_collection/engines/" ++ engine_id ++
    "/servingConfigs/default_serving_config"

/-- Python truthiness of the optional string parameters
(`if filter_str:` — `None` and `""` both skip the field). -/
def optStrTruthy : Option String → Bool
  | none => false
  | some s => !s.isEmpty

/-- The `request_params` construction of `search_documents`. -/
def buildDocumentSearchRequest (serving_config query : String) (page_size : Nat)
    (filter_str order_by : Option String) : SearchRequest :=
  ⟨serving_config, query, page_size, documentContentSearchSpec,
   if optStrTruthy filter_str then filter_str else none,
   if optStrTruthy order_by then order_by else none⟩

/-- The known filter/sort syntax failure substrings. -/
def filterErrors : List String :=
  ["Unsupported field", "Invalid filter syntax", "Unsupported rhs value",
   "Parsing filter failed"]

/-- Substring test (`needle in haystack`). -/
def charsContain : List Char → List Char → Bool
  | [], needle => needle.isEmpty
  | c :: rest, needle => needle.isPrefixOf (c :: rest) || charsContain rest needle

/-- Python `needle in haystack` on strings. -/
def strContains (haystack needle : String) : Bool :=
  charsContain haystack.toList needle.toList

/-- `any(err in error_msg for err in filter_errors)`. -/
def isFilterError (error_msg : String) : Bool :=
  filterErrors.any (fun err => strContains error_msg err)

/-- Whether an exception is an `InvalidArgument` whose message matches the
filter/sort failure substrings — the only errors the gateway swallows. -/
def isFilterInvalidArgument : PyExc → Bool
  | .invalidArgument msg => isFilterError msg
  | _ => false

/-- The `except google_exceptions.InvalidArgument` handler of
`search_documents`: on a message matching the known filter/sort failure
substrings, issue one retry (`callIdx`-th backend call) with `filter` and
`order_by` popped from the request parameters and parse its response;
otherwise re-raise. -/
def searchDocumentsFallback
    (backend : Nat → SearchRequest → Except PyExc RawSearchResponse)
    (serving_config query : String) (page_size : Nat)
    (callIdx : Nat) (msg : String) : Except PyExc DocumentSearchResult :=
  if isFilterError msg then
    match backend callIdx (buildDocumentSearchRequest serving_config query
        page_size none none) with
    | .ok response => parseDocumentResponse response
    | .error e => .error e
  else .error (.invalidArgument msg)

/-- `search_documents`, with the backend `search_client.search` modelled
as an oracle indexed by the call count (the success path issues the same
request twice because `response.results` is an iterator that the debug
count consumes).  An `InvalidArgument` raised inside the `try` block is
routed to the fallback handler; every other exception propagates. -/
def searchDocuments
    (backend : Nat → SearchRequest → Except PyExc RawSearchResponse)
    (serving_config query : String) (page_size : Nat)
    (filter_str order_by : Option String) : Except PyExc DocumentSearchResult :=
  match backend 0 (buildDocumentSearchRequest serving_config query page_size
      filter_str order_by) with
  | .error (.invalidArgument msg) =>
      searchDocumentsFallback backend serving_config query page_size 1 msg
  | .error e => .error e
  | .ok _ =>
      match backend 1 (buildDocumentSearchRequest serving_config query page_size
          filter_str order_by) with
      | .error (.invalidArgument msg) =>
          searchDocumentsFallback backend serving_config query page_size 2 msg
      | .error e => .error e
      | .ok response => parseDocumentResponse response

/-! ## `VertexAISearchService._parse_response`
(`services/vertex_ai_search_service.py`, lines 355-387) -/

/-- The citation one search result contributes, if any: documents missing
or without derived metadata are skipped, as are documents whose metadata
has neither a truthy `title` nor a truthy `link`; a truthy `link` without
a truthy `title` gets the placeholder title. -/
def citeOfResult (result : RawResult) : Option SearchCitation :=
  match result.document with
  | none => none
  | some document =>
      if document.derived_struct_data.isEmpty then none
      else
        let struct_data := document.derived_struct_data
        let title := pyGetD struct_data "title" (.vStr "")
        let url := pyGetD struct_data "link" (.vStr "")
        if pyTruthy title || pyTruthy url then
          some ⟨if pyTruthy title then pyStr title else "無題",
                if pyTruthy url then pyStr url else ""⟩
        else none

/-- `VertexAISearchService._parse_response` (the `SearchRequest`-based
service): summary text defaults to the empty string, citations scan the
result documents. -/
def parseResponse (response : RawSearchResponse) : SearchResult :=
  ⟨(match response.summary with
    | some s => if !s.summary_text.isEmpty then s.summary_text else ""
    | none => ""),
   response.results.filterMap citeOfResult⟩

/-- C2: when a filter or sort expression is provided and the first
backend call raises an `InvalidArgument` whose message matches a known
filter/sort failure substring, the gateway retries the identical request
once with `filter` and `order_by` removed and returns that second call's
(parsed) result, without propagating the first error; any other error of
the first call propagates unchanged. -/
theorem claim_C2
    (backend : Nat → SearchRequest → Except PyExc RawSearchResponse)
    (serving_config query : String) (page_size : Nat)
    (filter_str order_by : Option String)
    (_hprov : (optStrTruthy filter_str || optStrTruthy order_by) = true) :
    (∀ msg,
      backend 0 (buildDocumentSearchRequest serving_config query page_size
          filter_str order_by) = .error (.invalidArgument msg) →
      isFilterError msg = true →
      searchDocuments backend serving_config query page_size filter_str order_by =
        (match backend 1 (buildDocumentSearchRequest serving_config query
            page_size none none) with
         | .ok response => parseDocumentResponse response
         | .error e => .error e)) ∧
    (∀ e,
      backend 0 (buildDocumentSearchRequest serving_config query page_size
          filter_str order_by) = .error e →
      isFilterInvalidArgument e = false →
      searchDocuments backend serving_config query page_size filter_str order_by =
        .error e) := by
  constructor
  · intro msg h0 hmatch
    unfold searchDocuments
    rw [h0]
    unfold searchDocumentsFallback
    simp only [hmatch, if_true]
  · intro e h0 hnomatch
    unfold searchDocuments
    rw [h0]
    cases e with
    | invalidArgument msg =>
        simp only [isFilterInvalidArgument] at hnomatch
        simp [searchDocumentsFallback, hnomatch]
    | valueError m => rfl
    | attributeError m => rfl
    | typeError m => rfl
    | apiError m => rfl

/-- Witness for C2: a backend whose first call rejects the filter with an
"Invalid filter syntax" `InvalidArgument` and whose second call returns an
empty response makes the gateway return the parsed second result. -/
theorem claim_C2_witness :
    (optStrTruthy (some "date >= 2026-01-26") || optStrTruthy none) = true ∧
    searchDocuments
      (fun n _ => if n = 0
        then .error (.invalidArgument "400 Invalid filter syntax detected")
        else .ok ⟨none, []⟩)
      "sc" "朝会" 20 (some "date >= 2026-01-26") none = .ok ⟨[]⟩ := by
  refine ⟨rfl, ?_⟩
  have h := (claim_C2
    (fun n _ => if n = 0
      then .error (.invalidArgument "400 Invalid filter syntax detected")
      else .ok ⟨none, []⟩)
    "sc" "朝会" 20 (some "date >= 2026-01-26") none rfl).1
    "400 Invalid filter syntax detected" rfl rfl
  rw [h]
  rfl

/-- C3: for every backend response, `_parse_response` yields a summary
that is the backend summary text, or the empty string when the backend
reports no summary (never a missing value); the citations are exactly the
scan of the result documents, where a document missing, without derived
metadata, or with neither truthy title nor truthy link contributes
nothing, and a truthy link without a truthy title gets the placeholder
title. -/
theorem claim_C3 (response : RawSearchResponse) :
    ((response.summary = none → (parseResponse response).summary = "") ∧
     (∀ s, response.summary = some s →
        (parseResponse response).summary = s.summary_text)) ∧
    (parseResponse response).citations = response.results.filterMap citeOfResult ∧
    (∀ result : RawResult, result.document = none → citeOfResult result = none) ∧
    (∀ (result : RawResult) (document : RawDocument),
      result.document = some document →
      (document.derived_struct_data = [] → citeOfResult result = none) ∧
      (document.derived_struct_data ≠ [] →
        (pyTruthy (pyGetD document.derived_struct_data "title" (.vStr "")) = false →
         pyTruthy (pyGetD document.derived_struct_data "link" (.vStr "")) = false →
         citeOfResult result = none) ∧
        (pyTruthy (pyGetD document.derived_struct_data "title" (.vStr "")) = false →
         pyTruthy (pyGetD document.derived_struct_data "link" (.vStr "")) = true →
         citeOfResult result =
           some ⟨"無題",
                 pyStr (pyGetD document.derived_struct_data "link" (.vStr ""))⟩))) := by
  refine ⟨⟨?_, ?_⟩, rfl, ?_, ?_⟩
  · intro h
    simp [parseResponse, h]
  · intro s h
    simp only [parseResponse, h]
    cases hs : s.summary_text.isEmpty
    · simp
    · simp [(String.isEmpty_iff s.summary_text).mp hs]
  · intro result h
    simp [citeOfResult, h]
  · intro result document h
    constructor
    · intro hdata
      simp [citeOfResult, h, hdata]
    · intro hdata
      have hne : document.derived_struct_data.isEmpty = false := by
        cases hd : document.derived_struct_data with
        | nil => exact absurd hd hdata
        | cons a l => simp [hd, List.isEmpty]
      constructor
      · intro ht hl
        simp [citeOfResult, h, hne, ht, hl]
      · intro ht hl
        simp [citeOfResult, h, hne, ht, hl]

/-- Witness for C3: a response with no summary and a single result whose
document carries only a `link` yields the empty summary and the
placeholder-titled citation. -/
theorem claim_C3_witness :
    (parseResponse ⟨none, [⟨some ⟨[("link", .vStr "https://example.com/d1")]⟩⟩]⟩).summary
      = "" ∧
    citeOfResult ⟨some ⟨[("link", .vStr "https://example.com/d1")]⟩⟩ =
      some ⟨"無題", "https://example.com/d1"⟩ := by
  constructor
  · exact (claim_C3 ⟨none, [⟨some ⟨[("link", .vStr "https://example.com/d1")]⟩⟩]⟩).1.1 rfl
  · have h := ((claim_C3 ⟨none, []⟩).2.2.2
      ⟨some ⟨[("link", .vStr "https://example.com/d1")]⟩⟩
      ⟨[("link", .vStr "https://example.com/d1")]⟩ rfl).2 (by simp)
    exact (h.2 rfl rfl).trans (by rfl)

end NotebookLM

namespace NotebookLM

theorem parseResultsList_elem (l : List RawResult) (out : List DocumentResult)
    (h : parseResultsList l = .ok out) :
    ∀ r ∈ l, ∃ o, parseResultDocument r = .ok o ∧
      ∀ d, o = some d → d ∈ out := by
  induction l generalizing out with
  | nil => intro r hr; exact absurd hr (List.not_mem_nil r)
  | cons r' rs ih =>
      intro r hr
      rw [parseResultsList] at h
      cases hh : parseResultDocument r' with
      | error e => rw [hh] at h; exact absurd h (by simp)
      | ok o' =>
          rw [hh] at h
          cases ht : parseResultsList rs with
          | error e => rw [ht] at h; exact absurd h (by simp)
          | ok t =>
              rw [ht] at h
              have hout : out = match o' with
                  | none => t
                  | some d => d :: t := by
                cases o' with
                | none => simpa using h.symm
                | some d => simpa using h.symm
              rcases List.mem_cons.mp hr with hre | hrs
              · subst hre
                refine ⟨o', hh, ?_⟩
                intro d hd
                subst hd
                simp [hout]
              · obtain ⟨o, ho, hmem⟩ := ih t ht r hrs
                refine ⟨o, ho, fun d hd => ?_⟩
                have := hmem d hd
                cases o' with
                | none => simpa [hout] using this
                | some d' => simp [hout, this]

theorem parseResultsList_length (l : List RawResult) (out : List DocumentResult)
    (h : parseResultsList l = .ok out) : out.length ≤ l.length := by
  induction l generalizing out with
  | nil =>
      rw [parseResultsList] at h
      simp only [Except.ok.injEq] at h
      simp [← h]
  | cons r' rs ih =>
      rw [parseResultsList] at h
      cases hh : parseResultDocument r' with
      | error e => rw [hh] at h; exact absurd h (by simp)
      | ok o' =>
          rw [hh] at h
          cases ht : parseResultsList rs with
          | error e => rw [ht] at h; exact absurd h (by simp)
          | ok t =>
              rw [ht] at h
              have hlen := ih t ht
              cases o' with
              | none =>
                  simp only [Except.ok.injEq] at h
                  subst h
                  exact Nat.le_succ_of_le hlen
              | some d =>
                  simp only [Except.ok.injEq] at h
                  subst h
                  simpa using Nat.succ_le_succ hlen

/-- C4: for every document of a successfully parsed `search_documents`
response (present, with derived metadata), its `DocumentResult` is kept in
the result list, its content is never the empty string, and whenever the
extraction hierarchy yields zero content it is exactly the literal
fallback marker `(本文なし)` (and the full extracted content otherwise). -/
theorem claim_C4 (response : RawSearchResponse) (dsr : DocumentSearchResult)
    (result : RawResult) (document : RawDocument)
    (hok : parseDocumentResponse response = .ok dsr)
    (hmem : result ∈ response.results)
    (hdoc : result.document = some document)
    (hdata : document.derived_struct_data ≠ []) :
    ∃ dr, parseResultDocument result = .ok (some dr) ∧ dr ∈ dsr.results ∧
      dr.content ≠ "" ∧
      (documentFullContent document.derived_struct_data = .ok "" →
        dr.content = noContentMarker) ∧
      (∀ fc, documentFullContent document.derived_struct_data = .ok fc →
        fc ≠ "" → dr.content = fc) := by
  have hlist : parseResultsList response.results = .ok dsr.results := by
    unfold parseDocumentResponse at hok
    cases hl : parseResultsList response.results with
    | error e => rw [hl] at hok; exact absurd hok (by simp [Except.map])
    | ok t =>
        rw [hl] at hok
        simp only [Except.map, Except.ok.injEq] at hok
        rw [← hok]
  obtain ⟨o, ho, hd⟩ := parseResultsList_elem response.results dsr.results hlist
    result hmem
  have hne : document.derived_struct_data.isEmpty = false := by
    cases hd2 : document.derived_struct_data with
    | nil => exact absurd hd2 hdata
    | cons a l => simp [List.isEmpty]
  rw [parseResultDocument, hdoc] at ho
  simp only [hne, Bool.false_eq_true, if_false] at ho
  cases hfc : documentFullContent document.derived_struct_data with
  | error e => rw [hfc] at ho; exact absurd ho (by simp)
  | ok fc =>
      rw [hfc] at ho
      simp only [Except.ok.injEq] at ho
      refine ⟨⟨pyStr (pyGetD document.derived_struct_data "title" (.vStr "無題")),
        if fc = "" then noContentMarker else fc,
        pyStr (pyGetD document.derived_struct_data "link" (.vStr ""))⟩,
        ?_, ?_, ?_, ?_, ?_⟩
      · rw [parseResultDocument, hdoc]
        simp only [hne, Bool.false_eq_true, if_false, hfc]
      · exact hd _ ho.symm
      · by_cases hfe : fc = ""
        · simp only [hfe, if_true]
          intro hcon
          exact absurd hcon (by decide)
        · simp [hfe]
      · intro hzero
        have h0 : fc = "" := by injection hzero
        simp [h0]
      · intro fc' hfc' hfe
        have h0 : fc = fc' := by injection hfc'
        subst h0
        simp [hfe]

/-- Witness for C4: a one-document response whose metadata carries no
extractable text parses to a kept `DocumentResult` holding the fallback
marker. -/
theorem claim_C4_witness :
    parseDocumentResponse
        ⟨none, [⟨some ⟨[("title", .vStr "議事録"), ("link", .vStr "https://example.com/m")]⟩⟩]⟩
      = .ok ⟨[⟨"議事録", "(本文なし)", "https://example.com/m"⟩]⟩ ∧
    ∃ dr, parseResultDocument
        ⟨some ⟨[("title", .vStr "議事録"), ("link", .vStr "https://example.com/m")]⟩⟩
        = .ok (some dr) ∧
      dr.content ≠ "" ∧ dr.content = noContentMarker := by
  refine ⟨rfl, ?_⟩
  obtain ⟨dr, h1, _, h3, h4, _⟩ := claim_C4
    ⟨none, [⟨some ⟨[("title", .vStr "議事録"), ("link", .vStr "https://example.com/m")]⟩⟩]⟩
    ⟨[⟨"議事録", "(本文なし)", "https://example.com/m"⟩]⟩
    ⟨some ⟨[("title", .vStr "議事録"), ("link", .vStr "https://example.com/m")]⟩⟩
    ⟨[("title", .vStr "議事録"), ("link", .vStr "https://example.com/m")]⟩
    rfl (by simp) rfl (by simp)
  exact ⟨dr, h1, h3, h4 rfl⟩

/-- C9 (implicit behavior): a backend result whose document is missing or
whose `derived_struct_data` is empty is silently dropped — removing it
from the response leaves the parse unchanged — and consequently a parsed
`DocumentSearchResult` can hold fewer entries than the backend returned
(its length never exceeds the response length); such documents get no
fallback-content entry. -/
theorem claim_C9 (r : RawResult)
    (hskip : r.document = none ∨
      ∃ d, r.document = some d ∧ d.derived_struct_data = []) :
    (∀ (summary : Option RawSummary) (pre post : List RawResult),
        parseDocumentResponse ⟨summary, pre ++ r :: post⟩ =
          parseDocumentResponse ⟨summary, pre ++ post⟩) ∧
    (∀ (response : RawSearchResponse) (dsr : DocumentSearchResult),
        parseDocumentResponse response = .ok dsr →
        dsr.results.length ≤ response.results.length) := by
  have hnone : parseResultDocument r = .ok none := by
    rcases hskip with h | ⟨d, hd, hdata⟩
    · rw [parseResultDocument, h]
    · rw [parseResultDocument, hd]
      simp [hdata]
  constructor
  · intro summary pre post
    unfold parseDocumentResponse
    simp only
    congr 1
    induction pre with
    | nil =>
        rw [List.nil_append, List.nil_append, parseResultsList, hnone]
        cases ht : parseResultsList post <;> simp
    | cons p pre ih =>
        rw [List.cons_append, List.cons_append, parseResultsList, parseResultsList]
        rw [ih]
  · intro response dsr hok
    have hlist : parseResultsList response.results = .ok dsr.results := by
      unfold parseDocumentResponse at hok
      cases hl : parseResultsList response.results with
      | error e => rw [hl] at hok; exact absurd hok (by simp [Except.map])
      | ok t =>
          rw [hl] at hok
          simp only [Except.map, Except.ok.injEq] at hok
          rw [← hok]
    exact parseResultsList_length response.results dsr.results hlist

/-- Witness for C9: dropping a document-less result from a two-result
response leaves the parse unchanged, and the parsed list is shorter than
the backend's. -/
theorem claim_C9_witness :
    parseDocumentResponse
        ⟨none, [⟨none⟩, ⟨some ⟨[("title", .vStr "報告")]⟩⟩]⟩ =
      parseDocumentResponse ⟨none, [⟨some ⟨[("title", .vStr "報告")]⟩⟩]⟩ ∧
    (1 : Nat) ≤ 2 := by
  have h := claim_C9 ⟨none⟩ (Or.inl rfl)
  exact ⟨h.1 none [] [⟨some ⟨[("title", .vStr "報告")]⟩⟩], by decide⟩

end NotebookLM

namespace NotebookLM

/-! ## The MCP tool server (`servers/rag_server.py`) -/

/-- An MCP `TextContent` block (always of type "text" here). -/
structure TextContent where
  text : String
deriving DecidableEq, Repr

/-- The `_search_documents` tool handler.  The tool's whole `try` body —
parameter extraction, construction of the gateways, the search, answer
generation and output formatting — performs backend calls and is passed as
the oracle `body`; its modelled exceptions are exactly what the
`except Exception` clause catches and converts into the error text.  The
empty-query check happens before the `try` and also returns text. -/
def toolSearchDocuments (arguments : List (String × PyVal))
    (body : Except PyExc (List TextContent)) : List TextContent :=
  if !pyTruthy (pyGetD arguments "query" (.vStr "")) then
    [⟨"エラー: queryパラメータが必要です。"⟩]
  else
    match body with
    | .ok res => res
    | .error e => [⟨"検索エラー: " ++ pyExcMsg e⟩]

/-- The `_generate_slide_draft` tool handler, same wrapping shape. -/
def toolGenerateSlideDraft (arguments : List (String × PyVal))
    (body : Except PyExc (List TextContent)) : List TextContent :=
  if !pyTruthy (pyGetD arguments "query" (.vStr "")) then
    [⟨"エラー: queryパラメータが必要です。"⟩]
  else
    match body with
    | .ok res => res
    | .error e => [⟨"スライド生成エラー: " ++ pyExcMsg e⟩]

/-- The `_generate_diagram` tool handler, same wrapping shape (the
`chart_type` default is read before the `try` block and feeds the body). -/
def toolGenerateDiagram (arguments : List (String × PyVal))
    (body : Except PyExc (List TextContent)) : List TextContent :=
  if !pyTruthy (pyGetD arguments "query" (.vStr "")) then
    [⟨"エラー: queryパラメータが必要です。"⟩]
  else
    match body with
    | .ok res => res
    | .error e => [⟨"図解生成エラー: " ++ pyExcMsg e⟩]

/-- The `call_tool` dispatcher: routes the three known tool names to their
handlers and raises `ValueError` for any other name. -/
def callTool (name : String) (arguments : List (String × PyVal))
    (searchBody slideBody diagramBody : Except PyExc (List TextContent)) :
    Except PyExc (List TextContent) :=
  if name = "search_documents" then
    .ok (toolSearchDocuments arguments searchBody)
  else if name = "generate_slide_draft" then
    .ok (toolGenerateSlideDraft arguments slideBody)
  else if name = "generate_diagram" then
    .ok (toolGenerateDiagram arguments diagramBody)
  else
    .error (.valueError ("Unknown tool: " ++ name))

/-- C7 as stated is false: an invocation with an unknown tool name makes
`call_tool` raise a `ValueError` that escapes to the protocol layer
instead of being returned as text. -/
theorem claim_C7_counterexample :
    callTool "no_such_tool" [] (.ok []) (.ok []) (.ok []) =
      .error (.valueError "Unknown tool: no_such_tool") := by
  rfl

/-- C7 (amended): for every invocation of one of the three exposed tools
(`search_documents`, `generate_slide_draft`, `generate_diagram`), with any
arguments and any body outcome, the handler never lets an exception
escape: it always returns a text result, and when the wrapped body raises
the error is rendered into the tool's text, label and all.  An unknown
tool name, however, raises `ValueError`. -/
theorem claim_C7 (name : String) (arguments : List (String × PyVal))
    (searchBody slideBody diagramBody : Except PyExc (List TextContent))
    (hknown : name = "search_documents" ∨ name = "generate_slide_draft" ∨
      name = "generate_diagram") :
    (∃ r, callTool name arguments searchBody slideBody diagramBody = .ok r) ∧
    (∀ e, pyTruthy (pyGetD arguments "query" (.vStr "")) = true →
      (name = "search_documents" → searchBody = .error e →
        callTool name arguments searchBody slideBody diagramBody =
          .ok [⟨"検索エラー: " ++ pyExcMsg e⟩]) ∧
      (name = "generate_slide_draft" → slideBody = .error e →
        callTool name arguments searchBody slideBody diagramBody =
          .ok [⟨"スライド生成エラー: " ++ pyExcMsg e⟩]) ∧
      (name = "generate_diagram" → diagramBody = .error e →
        callTool name arguments searchBody slideBody diagramBody =
          .ok [⟨"図解生成エラー: " ++ pyExcMsg e⟩])) := by
  constructor
  · rcases hknown with h | h | h <;> subst h
    · exact ⟨toolSearchDocuments arguments searchBody, by rfl⟩
    · exact ⟨toolGenerateSlideDraft arguments slideBody, by rfl⟩
    · exact ⟨toolGenerateDiagram arguments diagramBody, by rfl⟩
  · intro e hq
    refine ⟨?_, ?_, ?_⟩ <;> intro hn hb <;> subst hn <;> rw [hb]
    · simp [callTool, toolSearchDocuments, hq]
    · simp [callTool, toolGenerateSlideDraft, hq]
    · simp [callTool, toolGenerateDiagram, hq]

/-- Witness for C7: a `search_documents` invocation whose body raises an
API error is answered with the labeled error text, not an exception. -/
theorem claim_C7_witness :
    callTool "search_documents" [("query", .vStr "朝会の議事録")]
        (.error (.apiError "503 backend unavailable")) (.ok []) (.ok []) =
      .ok [⟨"検索エラー: 503 backend unavailable"⟩] := by
  exact (((claim_C7 "search_documents" [("query", .vStr "朝会の議事録")]
    (.error (.apiError "503 backend unavailable")) (.ok []) (.ok [])
    (Or.inl rfl)).2 (.apiError "503 backend unavailable") rfl).1) rfl rfl

end NotebookLM

namespace NotebookLM

/-! ## Metadata export date derivation (`scripts/generate_metadata.py`,
`extract_date_from_filename` lines 151-195 and the date fallback of
`generate_metadata_entry` lines 233-240) -/

/-- `int()` of a digit group. -/
def digitsToNat (cs : List Char) : Nat :=
  cs.foldl (fun n c => 10 * n + (c.toNat - 48)) 0

/-- Take exactly `n` leading digits (`\d` as ASCII digits; the filenames
this tool scans do not use the further Unicode digits `re` would admit),
returning them and the remaining characters. -/
def takeDigitGroup : Nat → List Char → Option (List Char × List Char)
  | 0, cs => some ([], cs)
  | _ + 1, [] => none
  | n + 1, c :: cs =>
      if c.isDigit then (takeDigitGroup n cs).map (fun p => (c :: p.1, p.2))
      else none

/-- The regex `(\d{4})(\d{2})(\d{2})` anchored at the current position. -/
def matchCompactAt (cs : List Char) : Option (Nat × Nat × Nat) :=
  match takeDigitGroup 4 cs with
  | none => none
  | some (y, rest) =>
      match takeDigitGroup 2 rest with
      | none => none
      | some (m, rest2) =>
          match takeDigitGroup 2 rest2 with
          | none => none
          | some (d, _) => some (digitsToNat y, digitsToNat m, digitsToNat d)

/-- The regexes `(\d{4})-(\d{2})-(\d{2})` and `(\d{4})_(\d{2})_(\d{2})`,
anchored at the current position, with the separator as a parameter. -/
def matchSepAt (sep : Char) (cs : List Char) : Option (Nat × Nat × Nat) :=
  match takeDigitGroup 4 cs with
  | none => none
  | some (y, rest) =>
      match rest with
      | [] => none
      | c1 :: rest1 =>
          if c1 = sep then
            match takeDigitGroup 2 rest1 with
            | none => none
            | some (m, rest2) =>
                match rest2 with
                | [] => none
                | c2 :: rest3 =>
                    if c2 = sep then
                      match takeDigitGroup 2 rest3 with
                      | none => none
                      | some (d, _) => some (digitsToNat y, digitsToNat m, digitsToNat d)
                    else none
          else none

/-- `re.search`: the match at the leftmost position where the anchored
matcher succeeds. -/
def searchPattern (f : List Char → Option (Nat × Nat × Nat)) :
    List Char → Option (Nat × Nat × Nat)
  | [] => f []
  | c :: rest =>
      match f (c :: rest) with
      | some r => some r
      | none => searchPattern f rest

/-- The Gregorian leap-year rule `datetime` applies. -/
def isLeapYear (y : Nat) : Bool :=
  y % 4 = 0 && (y % 100 ≠ 0 || y % 400 = 0)

/-- Days per month as `datetime` validates them. -/
def daysInMonth (y m : Nat) : Nat :=
  if m = 2 then (if isLeapYear y then 29 else 28)
  else if m = 4 || m = 6 || m = 9 || m = 11 then 30
  else 31

/-- Whether `datetime(year, month, day)` succeeds (`MINYEAR = 1`,
`MAXYEAR = 9999`). -/
def isValidDate (y m d : Nat) : Bool :=
  1 ≤ y && y ≤ 9999 && 1 ≤ m && m ≤ 12 && 1 ≤ d && d ≤ daysInMonth y m

/-- Zero-pad a number to a width (`strftime` zero-pads each field of
`%Y-%m-%d`). -/
def padNat (width n : Nat) : String :=
  let s := toString n
  if s.length < width then String.mk (List.replicate (width - s.length) '0') ++ s
  else s

/-- `date.strftime("%Y-%m-%d")`. -/
def fmtDate (y m d : Nat) : String :=
  padNat 4 y ++ "-" ++ padNat 2 m ++ "-" ++ padNat 2 d

/-- One `try: datetime(...)` validation step: format the groups when they
form a real calendar date, otherwise fall through (`except ValueError`). -/
def validatedDate : Option (Nat × Nat × Nat) → Option String
  | some (y, m, d) => if isValidDate y m d then some (fmtDate y m d) else none
  | none => none

/-- `extract_date_from_filename`: the three patterns tried in order, each
validated as a real calendar date and normalized to `YYYY-MM-DD`. -/
def extractDateFromFilename (filename : String) : Option String :=
  match validatedDate (searchPattern matchCompactAt filename.toList) with
  | some s => some s
  | none =>
      match validatedDate (searchPattern (matchSepAt '-') filename.toList) with
      | some s => some s
      | none => validatedDate (searchPattern (matchSepAt '_') filename.toList)

/-- A `datetime` value, as far as the date derivation reads it. -/
structure PyDateTime where
  year : Nat
  month : Nat
  day : Nat
deriving DecidableEq, Repr

/-- A storage object: its name and optional last-modified timestamp. -/
structure Blob where
  name : String
  updated : Option PyDateTime
deriving DecidableEq, Repr

/-- Split a character list on a separator character. -/
def splitOnChar (sep : Char) : List Char → List (List Char)
  | [] => [[]]
  | c :: rest =>
      if c = sep then [] :: splitOnChar sep rest
      else
        match splitOnChar sep rest with
        | [] => [[c]]
        | g :: gs => (c :: g) :: gs

/-- `PurePosixPath(p).name`: the last real path segment (empty and `.`
segments drop out of the path's parts). -/
def posixBasename (p : String) : String :=
  String.mk ((((splitOnChar '/' p.toList).filter
    (fun s => !s.isEmpty && s ≠ ['.'])).getLast?).getD [])

/-- The per-document date derivation of `generate_metadata_entry`:
filename date if extractable, else the object's last-modified date, else
today. -/
def generateMetadataEntryDate (blob : Blob) (today : PyDateTime) : String :=
  match extractDateFromFilename (posixBasename blob.name) with
  | some date => date
  | none =>
      match blob.updated with
      | some dt => fmtDate dt.year dt.month dt.day
      | none => fmtDate today.year today.month today.day

theorem validatedDate_inv (r : Option (Nat × Nat × Nat)) (s : String)
    (h : validatedDate r = some s) :
    ∃ y m d, r = some (y, m, d) ∧ isValidDate y m d = true ∧ s = fmtDate y m d := by
  cases r with
  | none => exact absurd h (by simp [validatedDate])
  | some t =>
      obtain ⟨y, m, d⟩ := t
      cases hv : isValidDate y m d with
      | false => rw [validatedDate, hv] at h; exact absurd h (by simp)
      | true =>
          rw [validatedDate, hv] at h
          simp only [if_true, Option.some.injEq] at h
          exact ⟨y, m, d, rfl, hv, h.symm⟩

/-- C8: the metadata export tool derives the per-document date by the
exact fallback chain: a filename pattern match across the three date
formats — each a real calendar date, normalized to `YYYY-MM-DD` — else
the object's last-modified timestamp, else the current date. -/
theorem claim_C8 (blob : Blob) (today : PyDateTime) :
    (∀ s, extractDateFromFilename (posixBasename blob.name) = some s →
        generateMetadataEntryDate blob today = s ∧
        ∃ y m d, isValidDate y m d = true ∧ s = fmtDate y m d ∧
          (searchPattern matchCompactAt (posixBasename blob.name).toList
              = some (y, m, d) ∨
           searchPattern (matchSepAt '-') (posixBasename blob.name).toList
              = some (y, m, d) ∨
           searchPattern (matchSepAt '_') (posixBasename blob.name).toList
              = some (y, m, d))) ∧
    (extractDateFromFilename (posixBasename blob.name) = none →
        (∀ dt, blob.updated = some dt →
            generateMetadataEntryDate blob today = fmtDate dt.year dt.month dt.day) ∧
        (blob.updated = none →
            generateMetadataEntryDate blob today =
              fmtDate today.year today.month today.day)) := by
  constructor
  · intro s hs
    constructor
    · rw [generateMetadataEntryDate, hs]
    · rw [extractDateFromFilename] at hs
      cases h1 : validatedDate (searchPattern matchCompactAt
          (posixBasename blob.name).toList) with
      | some s1 =>
          rw [h1] at hs
          simp only [Option.some.injEq] at hs
          subst hs
          obtain ⟨y, m, d, hr, hv, hf⟩ := validatedDate_inv _ _ h1
          exact ⟨y, m, d, hv, hf, Or.inl hr⟩
      | none =>
          rw [h1] at hs
          cases h2 : validatedDate (searchPattern (matchSepAt '-')
              (posixBasename blob.name).toList) with
          | some s2 =>
              rw [h2] at hs
              simp only [Option.some.injEq] at hs
              subst hs
              obtain ⟨y, m, d, hr, hv, hf⟩ := validatedDate_inv _ _ h2
              exact ⟨y, m, d, hv, hf, Or.inr (Or.inl hr)⟩
          | none =>
              rw [h2] at hs
              obtain ⟨y, m, d, hr, hv, hf⟩ := validatedDate_inv _ _ hs
              exact ⟨y, m, d, hv, hf, Or.inr (Or.inr hr)⟩
  · intro hnone
    constructor
    · intro dt hdt
      rw [generateMetadataEntryDate, hnone, hdt]
    · intro hup
      rw [generateMetadataEntryDate, hnone, hup]

/-- Witness for C8, one concrete blob per branch of the chain: a filename
date wins over the timestamp, the timestamp is used when no filename date
matches, and today is used when the timestamp is also absent. -/
theorem claim_C8_witness :
    generateMetadataEntryDate ⟨"minutes/議事録_20260130.pdf", some ⟨2026, 2, 2⟩⟩
        ⟨2026, 10, 12⟩ = "2026-01-30" ∧
    generateMetadataEntryDate ⟨"docs/notes.pdf", some ⟨2026, 3, 4⟩⟩
        ⟨2026, 10, 12⟩ = "2026-03-04" ∧
    generateMetadataEntryDate ⟨"readme.md", none⟩ ⟨2026, 10, 12⟩ = "2026-10-12" := by
  refine ⟨?_, ?_, ?_⟩
  · exact ((claim_C8 ⟨"minutes/議事録_20260130.pdf", some ⟨2026, 2, 2⟩⟩
      ⟨2026, 10, 12⟩).1 "2026-01-30" (by rfl)).1
  · exact ((claim_C8 ⟨"docs/notes.pdf", some ⟨2026, 3, 4⟩⟩
      ⟨2026, 10, 12⟩).2 (by rfl)).1 ⟨2026, 3, 4⟩ rfl
  · exact ((claim_C8 ⟨"readme.md", none⟩ ⟨2026, 10, 12⟩).2 (by rfl)).2 rfl

end NotebookLM

namespace NotebookLM

/-! ## The `AnswerQuery`-based `VertexAISearchService._parse_response`
(`infrastructure/external/vertex_ai_search_service.py`, lines 142-176) -/

/-- `unstructured_document_info` of an answer reference. -/
structure UnstructuredDocumentInfo where
  uri : String
  title : String
deriving DecidableEq, Repr

/-- One entry of `answer.references`; the document info is `none` when
the message is absent/falsy. -/
structure AnswerReference where
  unstructured_document_info : Option UnstructuredDocumentInfo
deriving DecidableEq, Repr

/-- One entry of `citation.sources`. -/
structure AnswerCitationSource where
  reference_index : Nat
deriving DecidableEq, Repr

/-- One entry of `answer.citations`. -/
structure AnswerCitation where
  sources : List AnswerCitationSource
deriving DecidableEq, Repr

/-- `response.answer`, as far as the parser reads it. -/
structure AnswerPayload where
  answer_text : String
  citations : List AnswerCitation
  references : List AnswerReference
deriving DecidableEq, Repr

/-- An `AnswerQueryResponse`; `answer` is `none` when absent/falsy. -/
structure AnswerQueryResponse where
  answer : Option AnswerPayload
deriving DecidableEq, Repr

/-- The body of the double citation loop for a single citation source:
skip out-of-range reference indices and references without document info,
default the empty URI and title, and drop the citation when its URL is
already present (`not any(c.url == uri for c in citations)`). -/
def citeStep (references : List AnswerReference)
    (acc : List SearchCitation) (source : AnswerCitationSource) :
    List SearchCitation :=
  if h : source.reference_index < references.length then
    match (references.get ⟨source.reference_index, h⟩).unstructured_document_info with
    | some doc_info =>
        let uri := if !doc_info.uri.isEmpty then doc_info.uri else ""
        let title := if !doc_info.title.isEmpty then doc_info.title else "無題"
        if acc.any (fun c => c.url == uri) then acc
        else acc ++ [⟨title, uri⟩]
    | none => acc
  else acc

/-- The inner `for source in citation.sources` loop. -/
def citeFoldSources (references : List AnswerReference)
    (acc : List SearchCitation) (sources : List AnswerCitationSource) :
    List SearchCitation :=
  sources.foldl (citeStep references) acc

/-- The outer `for citation in response.answer.citations` loop. -/
def citeFoldCitations (references : List AnswerReference)
    (acc : List SearchCitation) (citations : List AnswerCitation) :
    List SearchCitation :=
  citations.foldl (fun a citation => citeFoldSources references a citation.sources) acc

/-- The `AnswerQuery`-based `_parse_response`: answer text defaulting to
the empty string, and the URL-deduplicated citation list. -/
def answerParseResponse (response : AnswerQueryResponse) : SearchResult :=
  ⟨(match response.answer with
    | some a => if !a.answer_text.isEmpty then a.answer_text else ""
    | none => ""),
   (match response.answer with
    | some a =>
        if !a.citations.isEmpty then citeFoldCitations a.references [] a.citations
        else []
    | none => [])⟩

theorem citeStep_nodup (references : List AnswerReference)
    (acc : List SearchCitation) (source : AnswerCitationSource)
    (h : (acc.map SearchCitation.url).Nodup) :
    ((citeStep references acc source).map SearchCitation.url).Nodup := by
  unfold citeStep
  by_cases hlt : source.reference_index < references.length
  · simp only [hlt, dif_pos]
    cases (references.get ⟨source.reference_index, hlt⟩).unstructured_document_info with
    | none => exact h
    | some doc_info =>
        simp only
        cases hany : (acc.any (fun c => c.url ==
            (if !doc_info.uri.isEmpty then doc_info.uri else ""))) with
        | true => simpa [hany] using h
        | false =>
            simp only [hany, Bool.false_eq_true, if_false, List.map_append,
              List.map_cons, List.map_nil]
            rw [List.nodup_append]
            refine ⟨h, List.nodup_singleton _, ?_⟩
            intro u hu hv
            simp only [List.mem_singleton] at hv
            subst hv
            obtain ⟨c, hc, hcu⟩ := List.mem_map.mp hu
            rw [List.any_eq_false] at hany
            have h2 := hany c hc
            simp [hcu] at h2
  · simpa [hlt] using h

theorem citeFoldSources_nodup (references : List AnswerReference)
    (sources : List AnswerCitationSource) :
    ∀ acc : List SearchCitation, (acc.map SearchCitation.url).Nodup →
      ((citeFoldSources references acc sources).map SearchCitation.url).Nodup := by
  induction sources with
  | nil => intro acc h; exact h
  | cons s rest ih =>
      intro acc h
      rw [citeFoldSources, List.foldl_cons]
      exact ih (citeStep references acc s) (citeStep_nodup references acc s h)

theorem citeFoldCitations_nodup (references : List AnswerReference)
    (citations : List AnswerCitation) :
    ∀ acc : List SearchCitation, (acc.map SearchCitation.url).Nodup →
      ((citeFoldCitations references acc citations).map SearchCitation.url).Nodup := by
  induction citations with
  | nil => intro acc h; exact h
  | cons c rest ih =>
      intro acc h
      rw [citeFoldCitations, List.foldl_cons]
      exact ih (citeFoldSources references acc c.sources)
        (citeFoldSources_nodup references c.sources acc h)

/-- C10 (implicit invariant): the `AnswerQuery`-based `search_and_answer`
parser deduplicates citations by URL — for every parsed response, no two
`SearchCitation` entries share the same `url` value. -/
theorem claim_C10 (response : AnswerQueryResponse) :
    ((answerParseResponse response).citations.map SearchCitation.url).Nodup := by
  unfold answerParseResponse
  cases response.answer with
  | none => simp
  | some a =>
      simp only
      cases hc : a.citations.isEmpty with
      | true => simp
      | false =>
          simp only [hc, Bool.not_false, if_true]
          exact citeFoldCitations_nodup a.references a.citations [] (by simp)

end NotebookLM
